import Mathlib

/-!
Shallow embedding of the resilience layer of `coins-for-change-platform`
(`src/shared/external/`): the circuit breaker, the retry manager, the
service-discovery registry and the service monitor.  Times are modelled as
rationals (Python `time.time()` floats), error classes as natural-number
kinds, and exception membership tests (`isinstance` against a configured
list) as list membership of the kind.
-/

namespace CoinsForChange

/-! ## Circuit breaker (`circuit_breaker.py`) -/

/-- State enum `CircuitBreakerState` (circuit_breaker.py lines 16-20). -/
inductive CBState where
  | closed
  | opened
  | halfOpen
deriving DecidableEq, Repr

/-- The mutable fields and configuration of `CircuitBreaker`
(circuit_breaker.py lines 33-68). -/
structure CircuitBreaker where
  failMax : Nat
  resetTimeout : ℚ
  successThreshold : Nat
  excludedKinds : List Nat
  state : CBState
  failCounter : Nat
  successCounter : Nat
  lastFailureTime : Option ℚ
  totalRequests : Nat
  totalFailures : Nat
  totalSuccesses : Nat
  stateChanges : Nat
deriving DecidableEq, Repr

/-- Constructor `CircuitBreaker.__init__` (lines 51-68): fresh breaker in CLOSED state. -/
def CircuitBreaker.init (failMax : Nat) (resetTimeout : ℚ) (successThreshold : Nat)
    (excludedKinds : List Nat) : CircuitBreaker :=
  { failMax := failMax
    resetTimeout := resetTimeout
    successThreshold := successThreshold
    excludedKinds := excludedKinds
    state := .closed
    failCounter := 0
    successCounter := 0
    lastFailureTime := none
    totalRequests := 0
    totalFailures := 0
    totalSuccesses := 0
    stateChanges := 0 }

/-- Method `CircuitBreaker._should_attempt_reset` (lines 103-111). -/
def CircuitBreaker.shouldAttemptReset (cb : CircuitBreaker) (now : ℚ) : Bool :=
  if cb.state ≠ CBState.opened then false
  else
    match cb.lastFailureTime with
    | none => false
    | some t => decide (now - t ≥ cb.resetTimeout)

/-- Method `CircuitBreaker._is_excluded_exception` (lines 113-115): `isinstance`
against the configured list, modelled as kind membership. -/
def CircuitBreaker.isExcluded (cb : CircuitBreaker) (kind : Nat) : Bool :=
  cb.excludedKinds.contains kind

/-- Method `CircuitBreaker._change_state` (lines 117-131): `state_changes` is
incremented unconditionally; counters are reset only when the state actually
changed. -/
def CircuitBreaker.changeState (cb : CircuitBreaker) (newState : CBState) : CircuitBreaker :=
  let old := cb.state
  let cb' := { cb with state := newState, stateChanges := cb.stateChanges + 1 }
  if old ≠ newState then
    match newState with
    | .closed => { cb' with failCounter := 0, successCounter := 0 }
    | .halfOpen => { cb' with successCounter := 0 }
    | .opened => cb'
  else cb'

/-- Method `CircuitBreaker._on_success` (lines 133-144). -/
def CircuitBreaker.onSuccess (cb : CircuitBreaker) : CircuitBreaker :=
  let cb := { cb with totalRequests := cb.totalRequests + 1,
                      totalSuccesses := cb.totalSuccesses + 1 }
  match cb.state with
  | .halfOpen =>
      let cb := { cb with successCounter := cb.successCounter + 1 }
      if cb.successCounter ≥ cb.successThreshold then cb.changeState .closed else cb
  | .closed => { cb with failCounter := 0 }
  | .opened => cb

/-- Method `CircuitBreaker._on_failure` (lines 146-162); `now` stands for the
`time.time()` call on line 155. -/
def CircuitBreaker.onFailure (cb : CircuitBreaker) (kind : Nat) (now : ℚ) : CircuitBreaker :=
  if cb.isExcluded kind then cb
  else
    let cb := { cb with totalRequests := cb.totalRequests + 1,
                        totalFailures := cb.totalFailures + 1,
                        lastFailureTime := some now }
    match cb.state with
    | .closed =>
        let cb := { cb with failCounter := cb.failCounter + 1 }
        if cb.failCounter ≥ cb.failMax then cb.changeState .opened else cb
    | .halfOpen => cb.changeState .opened
    | .opened => cb

/-- Outcome of invoking the wrapped operation: it returns normally or raises
an exception of some kind. -/
inductive Outcome where
  | success
  | failure (kind : Nat)
deriving DecidableEq, Repr

/-- Result of `CircuitBreaker.call`: the operation's value was returned, the
call was rejected with `CircuitBreakerError` (line 186), or the operation's
exception was re-raised (line 200). -/
inductive CallResult where
  | ok
  | rejected
  | errored (kind : Nat)
deriving DecidableEq, Repr

/-- Method `CircuitBreaker.call` (lines 164-200): attempt the reset transition,
reject while OPEN without invoking the operation, otherwise invoke it and
dispatch to `_on_success` / `_on_failure`.  The operation's behaviour is the
`outcome` argument; when the call is rejected the outcome is never consumed
(the operation is not invoked). -/
def CircuitBreaker.call (cb : CircuitBreaker) (now : ℚ) (outcome : Outcome) :
    CircuitBreaker × CallResult :=
  let cb := if cb.shouldAttemptReset now then cb.changeState .halfOpen else cb
  if cb.state = CBState.opened then (cb, .rejected)
  else
    match outcome with
    | .success => (cb.onSuccess, .ok)
    | .failure k => (cb.onFailure k now, .errored k)

/-- A sequence of calls, each with its wall-clock time and the operation's
outcome (were it invoked). -/
def CircuitBreaker.runCalls (cb : CircuitBreaker) (calls : List (ℚ × Outcome)) :
    CircuitBreaker :=
  calls.foldl (fun c p => (c.call p.1 p.2).1) cb

/-! ## Retry manager (`retry.py`) -/

/-- Exception `RetryError` (retry.py lines 16-22): carries the last exception's kind and
the reported attempt count. -/
structure RetryError where
  lastKind : Option Nat
  attempts : Nat
deriving DecidableEq, Repr

/-- Constructor `RetryManager.__init__` (lines 30-55).  `retryableKinds` models
`retryable_exceptions`; `_should_retry` is kind membership. -/
structure RetryManager where
  maxRetries : Nat
  baseDelay : ℚ
  maxDelay : ℚ
  exponentialBase : ℚ
  jitter : Bool
  retryableKinds : List Nat
deriving DecidableEq, Repr

/-- Method `RetryManager._should_retry` (lines 80-90). -/
def RetryManager.shouldRetry (m : RetryManager) (kind : Nat) : Bool :=
  m.retryableKinds.contains kind

/-- Method `RetryManager._calculate_delay` (lines 57-78).  `rand` is the value drawn
by `random.uniform(-jitter_amount, jitter_amount)` when jitter is enabled
(irrelevant when `jitter = false`). -/
def RetryManager.calculateDelay (m : RetryManager) (attempt : Nat) (rand : ℚ) : ℚ :=
  let delay := m.baseDelay * m.exponentialBase ^ attempt
  let delay := min delay m.maxDelay
  let delay := if m.jitter then delay + rand else delay
  max 0 delay

/-- One attempt of the wrapped operation: attempt index `i` either returns a
value or raises an exception of some kind. -/
inductive Attempt (α : Type) where
  | ok (v : α)
  | err (kind : Nat)
deriving DecidableEq, Repr

/-- The loop body of `RetryManager.execute_with_retry` (lines 107-142),
indexed by the remaining retries (`fuel = max_retries - attempt`, so
`fuel = 0` exactly when `attempt == self.max_retries`).  Returns the result
(`Except` models return vs. raised `RetryError`) together with the number of
times the operation was invoked.  Both exits of the loop raise
`RetryError(..., last_exception, self.max_retries + 1)` (lines 138-142). -/
def RetryManager.retryAux (m : RetryManager) (op : Nat → Attempt α) :
    Nat → Nat → Except RetryError α × Nat
  | fuel, attempt =>
    match op attempt with
    | .ok v => (.ok v, attempt + 1)
    | .err k =>
      match fuel with
      | 0 => (.error ⟨some k, m.maxRetries + 1⟩, attempt + 1)
      | fuel + 1 =>
        if m.shouldRetry k then m.retryAux op fuel (attempt + 1)
        else (.error ⟨some k, m.maxRetries + 1⟩, attempt + 1)

/-- Method `RetryManager.execute_with_retry` (lines 92-142): `max_retries + 1` total
attempts starting at attempt index 0. -/
def RetryManager.executeWithRetry (m : RetryManager) (op : Nat → Attempt α) :
    Except RetryError α × Nat :=
  m.retryAux op m.maxRetries 0

/-! ## Service discovery (`service_discovery.py`) -/

/-- Constructor `ServiceEndpoint.__init__` (service_discovery.py lines 18-24). -/
structure ServiceEndpoint where
  host : String
  port : Nat
  scheme : String
  weight : Int
  healthy : Bool
deriving DecidableEq, Repr

/-- The `default_ports` dict of `KubernetesServiceDiscovery.discover_endpoints`
(lines 156-162). -/
def defaultPorts : List (String × Nat) :=
  [("database", 5432), ("postgres", 5432), ("redis", 6379),
   ("opensearch", 9200), ("elasticsearch", 9200)]

/-- Lookup `default_ports.get(service_name, 80)` (line 164). -/
def defaultPortFor (serviceName : String) : Nat :=
  (defaultPorts.lookup serviceName).getD 80

/-- A Python exception escaping a modelled function. -/
inductive PyError where
  | unboundLocal (name : String)
deriving DecidableEq, Repr

/-- Method `KubernetesServiceDiscovery.discover_endpoints` (lines 132-183).  The DNS
resolution `socket.getaddrinfo` is the input `dns`: `some ips` is the list of
unique resolved addresses, `none` means it raised.  On the success path each
IP becomes an endpoint on the service's default port with scheme "http"
(lines 164-171).  On the failure path the `except` block (lines 173-181)
evaluates `default_ports.get(service_name, 80)` — but `default_ports` is a
local assigned on lines 156-162 *inside the `try`, after `getaddrinfo`*, so
when `getaddrinfo` raises, that name is still unbound and the handler itself
raises `UnboundLocalError`, which propagates out of `discover_endpoints`. -/
def kubeDiscoverEndpoints (serviceName : String) (dns : Option (List String)) :
    Except PyError (List ServiceEndpoint) :=
  match dns with
  | some ips =>
      .ok (ips.map fun ip =>
        { host := ip, port := defaultPortFor serviceName, scheme := "http",
          weight := 1, healthy := true })
  | none => .error (.unboundLocal "default_ports")

/-- Method `StaticServiceDiscovery.discover_endpoints` (lines 101-103): a plain
dictionary lookup with default `[]`; never raises. -/
def staticDiscoverEndpoints (staticEndpoints : List (String × List ServiceEndpoint))
    (serviceName : String) : List ServiceEndpoint :=
  (staticEndpoints.lookup serviceName).getD []

/-- The `max(healthy_endpoints, key=lambda ep: ep.weight)` of
`ServiceRegistry.get_best_endpoint` (line 255): Python's `max` keeps the
first element and replaces it only on a strictly greater key, so the first
endpoint of maximal weight wins. -/
def maxByWeight : ServiceEndpoint → List ServiceEndpoint → ServiceEndpoint
  | best, [] => best
  | best, e :: es => maxByWeight (if e.weight > best.weight then e else best) es

/-- The healthy filter of `ServiceRegistry.get_healthy_endpoints`
(line 231), applied to the cached endpoint list of a service. -/
def getHealthyEndpoints (cached : List ServiceEndpoint) : List ServiceEndpoint :=
  cached.filter (·.healthy)

/-- Method `ServiceRegistry.get_best_endpoint` (lines 233-255) on the cached
endpoint list: `None` when no endpoint is healthy, the first healthy endpoint
when the healthy weights sum to zero, otherwise the first healthy endpoint of
maximal weight. -/
def getBestEndpoint (cached : List ServiceEndpoint) : Option ServiceEndpoint :=
  match getHealthyEndpoints cached with
  | [] => none
  | e :: es =>
      let totalWeight := ((e :: es).map (·.weight)).sum
      if totalWeight = 0 then some e
      else some (maxByWeight e es)

/-! ## Service monitor (`monitoring.py`) -/

/-- Severity enum `AlertSeverity` (monitoring.py lines 14-19). -/
inductive AlertSeverity where
  | info
  | warning
  | error
  | critical
deriving DecidableEq, Repr

/-- The distinct alert messages `_perform_health_check` can emit
(lines 170-228), keeping only the data the messages interpolate. -/
inductive AlertMsg where
  | responseTimeExceeded
  | consecutiveUnhealthy (n : Nat)
  | becameUnhealthy
  | recovered
  | errorRateExceeded
  | healthCheckFailed (exc : String)
deriving DecidableEq, Repr

/-- An `Alert` as sent by `ServiceMonitor._send_alert` (severity, message). -/
structure Alert where
  severity : AlertSeverity
  msg : AlertMsg
deriving DecidableEq, Repr

/-- Record `ServiceMetrics` (monitoring.py lines 35-45), without the constant
`service_name` and `uptime_percentage` fields. -/
structure ServiceMetrics where
  isHealthy : Bool
  responseTimeMs : ℚ
  errorCount : Nat
  successCount : Nat
  lastCheck : ℚ
  consecutiveFailures : Nat
deriving DecidableEq, Repr

/-- Property `ServiceMetrics.total_requests` (lines 47-49). -/
def ServiceMetrics.totalRequests (m : ServiceMetrics) : Nat :=
  m.errorCount + m.successCount

/-- Property `ServiceMetrics.error_rate` (lines 51-55). -/
def ServiceMetrics.errorRate (m : ServiceMetrics) : ℚ :=
  if m.totalRequests = 0 then 0 else (m.errorCount : ℚ) / (m.totalRequests : ℚ)

/-- A `ServiceMonitor`'s configuration and metrics (lines 86-119). -/
structure ServiceMonitor where
  failureThreshold : Nat
  responseTimeThreshold : ℚ
  errorRateThreshold : ℚ
  metrics : ServiceMetrics
deriving DecidableEq, Repr

/-- What the caller-supplied health-check function did: returned a dict with
some `status` value, returned a boolean, returned something else, or raised
an exception (lines 144-162 and 218). -/
inductive CheckResult where
  | retDict (status : String)
  | retBool (b : Bool)
  | retOther
  | raised (exc : String)
deriving DecidableEq, Repr

/-- The healthiness classification of a returned (non-raising) result
(lines 156-162). -/
def healthOf : CheckResult → Bool
  | .retDict status => status = "healthy"
  | .retBool b => b
  | .retOther => true
  | .raised _ => false

/-- Whether the health-check function raised (the `except` path,
lines 218-230). -/
def CheckResult.isRaised : CheckResult → Bool
  | .raised _ => true
  | _ => false

/-- Method `ServiceMonitor._perform_health_check` (lines 140-230).  `responseTime`
is the measured `(time.time() - start_time) * 1000` and `now` the
`time.time()` stored in `last_check`.  Returns the updated monitor, the
alerts sent in order, and the function's boolean return value.  On the
exception path (lines 218-230) `response_time_ms` is not touched and the
only alert is "Health check failed". -/
def ServiceMonitor.performHealthCheck (mon : ServiceMonitor) (result : CheckResult)
    (responseTime now : ℚ) : ServiceMonitor × List Alert × Bool :=
  match result with
  | .raised exc =>
      let m := { mon.metrics with
                   errorCount := mon.metrics.errorCount + 1,
                   consecutiveFailures := mon.metrics.consecutiveFailures + 1,
                   isHealthy := false,
                   lastCheck := now }
      ({ mon with metrics := m }, [⟨.error, .healthCheckFailed exc⟩], false)
  | _ =>
      let base := { mon.metrics with responseTimeMs := responseTime, lastCheck := now }
      let isHealthy := healthOf result
      let m :=
        if isHealthy then
          { base with successCount := base.successCount + 1, consecutiveFailures := 0 }
        else
          { base with errorCount := base.errorCount + 1,
                      consecutiveFailures := base.consecutiveFailures + 1 }
      let alerts₁ :=
        if isHealthy then
          (if responseTime > mon.responseTimeThreshold then
             [(⟨.warning, .responseTimeExceeded⟩ : Alert)]
           else [])
        else
          (if m.consecutiveFailures ≥ mon.failureThreshold then
             [(⟨.error, .consecutiveUnhealthy m.consecutiveFailures⟩ : Alert)]
           else [])
      let wasHealthy := m.isHealthy
      let m := { m with isHealthy := isHealthy }
      let alerts₂ :=
        if wasHealthy && !isHealthy then [(⟨.error, .becameUnhealthy⟩ : Alert)]
        else if !wasHealthy && isHealthy then [(⟨.info, .recovered⟩ : Alert)]
        else []
      let alerts₃ :=
        if m.totalRequests > 10 ∧ m.errorRate > mon.errorRateThreshold then
          [(⟨.warning, .errorRateExceeded⟩ : Alert)]
        else []
      ({ mon with metrics := m }, alerts₁ ++ alerts₂ ++ alerts₃, isHealthy)

/-! ## Concrete fixtures used by the end-to-end scenarios -/

/-- A healthy weight-1 redis endpoint (the spec's end-to-end scenario). -/
def redisW1 : ServiceEndpoint :=
  { host := "redis-a", port := 6379, scheme := "http", weight := 1, healthy := true }

/-- A healthy weight-3 redis endpoint (the spec's end-to-end scenario). -/
def redisW3 : ServiceEndpoint :=
  { host := "redis-b", port := 6379, scheme := "http", weight := 3, healthy := true }

/-- A healthy endpoint of weight -1 and a healthy endpoint of weight 1,
whose weights sum to 0. -/
def epNeg : ServiceEndpoint :=
  { host := "neg", port := 80, scheme := "http", weight := -1, healthy := true }

/-- A healthy endpoint of weight 1 paired with `epNeg`. -/
def epPos : ServiceEndpoint :=
  { host := "pos", port := 80, scheme := "http", weight := 1, healthy := true }

/-- An open breaker (failMax 3, resetTimeout 60, successThreshold 1, error
kind 9 excluded) that tripped at time 100, as produced by three non-excluded
failures. -/
def cbOpenAt100 : CircuitBreaker :=
  { failMax := 3, resetTimeout := 60, successThreshold := 1, excludedKinds := [9],
    state := .opened, failCounter := 3, successCounter := 0,
    lastFailureTime := some 100, totalRequests := 3, totalFailures := 3,
    totalSuccesses := 0, stateChanges := 1 }

/-- A retry manager with maxRetries 3 and no retryable kinds (so every error
is non-retryable). -/
def retryNoneRetryable : RetryManager :=
  { maxRetries := 3, baseDelay := 1, maxDelay := 60, exponentialBase := 2,
    jitter := false, retryableKinds := [] }

/-- A retry manager with a negative base delay and jitter disabled. -/
def retryNegBase : RetryManager :=
  { maxRetries := 3, baseDelay := -1, maxDelay := 60, exponentialBase := 2,
    jitter := false, retryableKinds := [0] }

/-- A freshly created monitor (failure threshold 3, response-time threshold
1000 ms, error-rate threshold 10 percent) whose service is currently
healthy. -/
def monHealthy : ServiceMonitor :=
  { failureThreshold := 3, responseTimeThreshold := 1000, errorRateThreshold := 1/10,
    metrics := { isHealthy := true, responseTimeMs := 0, errorCount := 0,
                 successCount := 0, lastCheck := 0, consecutiveFailures := 0 } }

/-! ## Circuit breaker lemmas -/

/-- The reset probe never fires outside the OPEN state. -/
theorem shouldAttemptReset_of_ne_opened (cb : CircuitBreaker) (now : ℚ)
    (h : cb.state ≠ CBState.opened) : cb.shouldAttemptReset now = false := by
  simp [CircuitBreaker.shouldAttemptReset, h]

/-- The reset probe does not fire while the reset timeout has not elapsed. -/
theorem shouldAttemptReset_recent (cb : CircuitBreaker) (now tl : ℚ)
    (hl : cb.lastFailureTime = some tl) (hr : now - tl < cb.resetTimeout) :
    cb.shouldAttemptReset now = false := by
  by_cases hs : cb.state = CBState.opened
  · simp only [CircuitBreaker.shouldAttemptReset, hs, ne_eq, not_true_eq_false,
      if_false, hl, ge_iff_le, decide_eq_false_iff_not, not_le]
    exact hr
  · simp [CircuitBreaker.shouldAttemptReset, hs]

/-- A call while OPEN before the reset timeout is rejected and is a complete
no-op on the breaker, whatever the operation would have done. -/
theorem call_rejected_frame (cb : CircuitBreaker) (now tl : ℚ)
    (hs : cb.state = CBState.opened) (hl : cb.lastFailureTime = some tl)
    (hr : now - tl < cb.resetTimeout) (o : Outcome) :
    cb.call now o = (cb, CallResult.rejected) := by
  unfold CircuitBreaker.call
  rw [shouldAttemptReset_recent cb now tl hl hr]
  simp [hs]

/-- Unfolding one call from a call sequence. -/
theorem runCalls_cons (cb : CircuitBreaker) (c : ℚ × Outcome) (cs : List (ℚ × Outcome)) :
    cb.runCalls (c :: cs) = ((cb.call c.1 c.2).1).runCalls cs := rfl

/-- The empty call sequence. -/
theorem runCalls_nil (cb : CircuitBreaker) : cb.runCalls [] = cb := rfl

/-- Any number of calls at the trip time itself leave an OPEN breaker with a
positive reset timeout untouched. -/
theorem runCalls_rejected (cb : CircuitBreaker) (t : ℚ) (o : Outcome)
    (hs : cb.state = CBState.opened) (hl : cb.lastFailureTime = some t)
    (hrt : 0 < cb.resetTimeout) :
    ∀ n, cb.runCalls (List.replicate n (t, o)) = cb := by
  intro n
  induction n with
  | zero => rfl
  | succ n ih =>
    rw [List.replicate_succ, runCalls_cons,
        call_rejected_frame cb t t hs hl (by simpa using hrt) o]
    exact ih

/-- One non-excluded failing call in CLOSED state, below the trip
threshold. -/
theorem call_closed_failure_lt (cb : CircuitBreaker) (t : ℚ) (k : Nat)
    (hs : cb.state = CBState.closed) (hk : cb.isExcluded k = false)
    (hlt : cb.failCounter + 1 < cb.failMax) :
    cb.call t (.failure k) =
      ({ cb with failCounter := cb.failCounter + 1, lastFailureTime := some t,
                 totalRequests := cb.totalRequests + 1,
                 totalFailures := cb.totalFailures + 1 }, .errored k) := by
  have h1 : ¬cb.failMax ≤ cb.failCounter + 1 := by omega
  simp [CircuitBreaker.call, CircuitBreaker.onFailure,
    shouldAttemptReset_of_ne_opened cb t (by simp [hs]), hs, hk, h1]

/-- One non-excluded failing call in CLOSED state that reaches the trip
threshold: the breaker opens. -/
theorem call_closed_failure_ge (cb : CircuitBreaker) (t : ℚ) (k : Nat)
    (hs : cb.state = CBState.closed) (hk : cb.isExcluded k = false)
    (hge : cb.failMax ≤ cb.failCounter + 1) :
    cb.call t (.failure k) =
      ({ cb with failCounter := cb.failCounter + 1, lastFailureTime := some t,
                 totalRequests := cb.totalRequests + 1,
                 totalFailures := cb.totalFailures + 1,
                 state := CBState.opened, stateChanges := cb.stateChanges + 1 },
       .errored k) := by
  have h1 : cb.failMax ≤ cb.failCounter + 1 := hge
  simp [CircuitBreaker.call, CircuitBreaker.onFailure, CircuitBreaker.changeState,
    shouldAttemptReset_of_ne_opened cb t (by simp [hs]), hs, hk, h1]

/-- Induction core for C1: from CLOSED, enough consecutive non-excluded
failures (all at time `t`) leave the breaker OPEN with `lastFailureTime = t`
and its configuration intact. -/
theorem opens_after_failures_aux (k : Nat) (t : ℚ) :
    ∀ n (cb : CircuitBreaker), cb.state = CBState.closed →
      cb.isExcluded k = false → 0 < cb.resetTimeout →
      cb.failMax ≤ cb.failCounter + n → 1 ≤ n →
      (cb.runCalls (List.replicate n (t, .failure k))).state = CBState.opened ∧
      (cb.runCalls (List.replicate n (t, .failure k))).lastFailureTime = some t ∧
      (cb.runCalls (List.replicate n (t, .failure k))).resetTimeout = cb.resetTimeout := by
  intro n
  induction n with
  | zero => intro cb _ _ _ _ h1; omega
  | succ n ih =>
    intro cb hs hk hrt hmax _
    rw [List.replicate_succ, runCalls_cons]
    by_cases hge : cb.failMax ≤ cb.failCounter + 1
    · rw [call_closed_failure_ge cb t k hs hk hge]
      rw [runCalls_rejected _ t _ rfl rfl (by simpa using hrt) n]
      exact ⟨rfl, rfl, rfl⟩
    · rw [call_closed_failure_lt cb t k hs hk (by omega)]
      have := ih { cb with failCounter := cb.failCounter + 1, lastFailureTime := some t,
                           totalRequests := cb.totalRequests + 1,
                           totalFailures := cb.totalFailures + 1 }
        hs (by simpa [CircuitBreaker.isExcluded] using hk) (by simpa using hrt)
        (by simp; omega) (by omega)
      simpa using this

/-- C1: a breaker in CLOSED state, hit by `n ≥ failMax` consecutive
non-excluded failures, ends up OPEN; while the reset timeout has not elapsed,
the next call is rejected without consuming the operation's outcome and
without changing a single field of the breaker. -/
theorem circuitBreaker_opens_then_rejects (cb : CircuitBreaker) (k n : Nat) (t tNext : ℚ)
    (hs : cb.state = CBState.closed) (hk : cb.isExcluded k = false)
    (hmax : 1 ≤ cb.failMax) (hn : cb.failMax ≤ n) (hrt : 0 < cb.resetTimeout)
    (hNext : tNext - t < cb.resetTimeout) :
    (cb.runCalls (List.replicate n (t, .failure k))).state = CBState.opened ∧
    (∀ o, (cb.runCalls (List.replicate n (t, .failure k))).call tNext o =
      (cb.runCalls (List.replicate n (t, .failure k)), CallResult.rejected)) := by
  obtain ⟨hst, hlf, hrtEq⟩ :=
    opens_after_failures_aux k t n cb hs hk hrt (by omega) (by omega)
  refine ⟨hst, fun o => ?_⟩
  exact call_rejected_frame _ tNext t hst hlf (by rw [hrtEq]; exact hNext) o

/-- Witness for C1: a fresh breaker with `failMax = 2` opens after two
failures at time 0 and rejects a call at time 10 unchanged. -/
theorem circuitBreaker_opens_then_rejects_witness :
    ((CircuitBreaker.init 2 60 1 []).runCalls
        (List.replicate 2 (0, .failure 7))).state = CBState.opened ∧
    ((CircuitBreaker.init 2 60 1 []).runCalls
        (List.replicate 2 (0, .failure 7))).call 10 Outcome.success =
      ((CircuitBreaker.init 2 60 1 []).runCalls (List.replicate 2 (0, .failure 7)),
       CallResult.rejected) := by
  have h := circuitBreaker_opens_then_rejects (CircuitBreaker.init 2 60 1 []) 7 2 0 10
    rfl rfl (by decide) (by decide) (by norm_num [CircuitBreaker.init])
    (by norm_num [CircuitBreaker.init])
  exact ⟨h.1, h.2 Outcome.success⟩

/-- One successful call in HALF_OPEN state below the success threshold. -/
theorem call_halfOpen_success_lt (cb : CircuitBreaker) (t : ℚ)
    (hs : cb.state = CBState.halfOpen)
    (hlt : cb.successCounter + 1 < cb.successThreshold) :
    cb.call t .success =
      ({ cb with totalRequests := cb.totalRequests + 1,
                 totalSuccesses := cb.totalSuccesses + 1,
                 successCounter := cb.successCounter + 1 }, .ok) := by
  have h1 : ¬cb.successThreshold ≤ cb.successCounter + 1 := by omega
  simp [CircuitBreaker.call, CircuitBreaker.onSuccess,
    shouldAttemptReset_of_ne_opened cb t (by simp [hs]), hs, h1]

/-- One successful call in HALF_OPEN state that reaches the success
threshold: the breaker closes and both counters reset. -/
theorem call_halfOpen_success_ge (cb : CircuitBreaker) (t : ℚ)
    (hs : cb.state = CBState.halfOpen)
    (hge : cb.successThreshold ≤ cb.successCounter + 1) :
    cb.call t .success =
      ({ cb with totalRequests := cb.totalRequests + 1,
                 totalSuccesses := cb.totalSuccesses + 1,
                 successCounter := 0, failCounter := 0,
                 state := CBState.closed, stateChanges := cb.stateChanges + 1 },
       .ok) := by
  simp [CircuitBreaker.call, CircuitBreaker.onSuccess, CircuitBreaker.changeState,
    shouldAttemptReset_of_ne_opened cb t (by simp [hs]), hs, hge]

/-- One successful call in CLOSED state: the failure streak resets and the
breaker stays CLOSED. -/
theorem call_closed_success (cb : CircuitBreaker) (t : ℚ)
    (hs : cb.state = CBState.closed) :
    cb.call t .success =
      ({ cb with totalRequests := cb.totalRequests + 1,
                 totalSuccesses := cb.totalSuccesses + 1,
                 failCounter := 0 }, .ok) := by
  simp [CircuitBreaker.call, CircuitBreaker.onSuccess,
    shouldAttemptReset_of_ne_opened cb t (by simp [hs]), hs]

/-- A CLOSED breaker stays CLOSED under any number of successful calls. -/
theorem runCalls_success_closed (t : ℚ) :
    ∀ n (cb : CircuitBreaker), cb.state = CBState.closed →
      (cb.runCalls (List.replicate n (t, .success))).state = CBState.closed := by
  intro n
  induction n with
  | zero => intro cb hs; exact hs
  | succ n ih =>
    intro cb hs
    rw [List.replicate_succ, runCalls_cons, call_closed_success cb t hs]
    exact ih _ hs

/-- Induction core for C2: in HALF_OPEN, enough consecutive successes close
the breaker. -/
theorem closes_after_successes_aux (t : ℚ) :
    ∀ n (cb : CircuitBreaker), cb.state = CBState.halfOpen →
      cb.successThreshold ≤ cb.successCounter + n → 1 ≤ n →
      (cb.runCalls (List.replicate n (t, .success))).state = CBState.closed := by
  intro n
  induction n with
  | zero => intro cb _ _ h1; omega
  | succ n ih =>
    intro cb hs hth _
    rw [List.replicate_succ, runCalls_cons]
    by_cases hge : cb.successThreshold ≤ cb.successCounter + 1
    · rw [call_halfOpen_success_ge cb t hs hge]
      exact runCalls_success_closed t n _ rfl
    · rw [call_halfOpen_success_lt cb t hs (by omega)]
      exact ih _ hs (by simp; omega) (by omega)

/-- Once the reset timeout has elapsed, the next call on an OPEN breaker goes
through the HALF_OPEN probe transition and invokes the operation: the call
result reflects the operation's outcome instead of a rejection. -/
theorem call_open_elapsed (cb : CircuitBreaker) (now tl : ℚ)
    (hs : cb.state = CBState.opened) (hl : cb.lastFailureTime = some tl)
    (hel : cb.resetTimeout ≤ now - tl) :
    ∀ o, (cb.call now o).2 = (match o with
      | Outcome.success => CallResult.ok
      | Outcome.failure k => CallResult.errored k) := by
  intro o
  have hres : cb.shouldAttemptReset now = true := by
    simp [CircuitBreaker.shouldAttemptReset, hs, hl, hel]
  have hhalf : (cb.changeState CBState.halfOpen).state = CBState.halfOpen := by
    simp [CircuitBreaker.changeState, hs]
  unfold CircuitBreaker.call
  rw [hres]
  cases o <;> simp [hhalf]

/-- Any single non-excluded failure in HALF_OPEN reopens the breaker and
stamps `lastFailureTime` with the current time. -/
theorem call_halfOpen_failure (cb : CircuitBreaker) (now : ℚ) (k : Nat)
    (hs : cb.state = CBState.halfOpen) (hk : cb.isExcluded k = false) :
    (cb.call now (.failure k)).1.state = CBState.opened ∧
    (cb.call now (.failure k)).1.lastFailureTime = some now := by
  simp [CircuitBreaker.call, CircuitBreaker.onFailure, CircuitBreaker.changeState,
    shouldAttemptReset_of_ne_opened cb now (by simp [hs]), hs, hk]

/-- C2: (a) an OPEN breaker whose reset timeout has elapsed lets the next
call through — the result reflects the operation's outcome, never a
rejection; (b) from HALF_OPEN with a fresh success counter,
`successThreshold` consecutive successes close the breaker; (c) a single
non-excluded failure in HALF_OPEN reopens it and resets `lastFailureTime`
to the current time. -/
theorem circuitBreaker_halfOpen_recovery
    (cb₁ cb₂ cb₃ : CircuitBreaker) (tl now₁ t₂ now₃ : ℚ) (k : Nat)
    (hs₁ : cb₁.state = CBState.opened) (hl₁ : cb₁.lastFailureTime = some tl)
    (hel₁ : cb₁.resetTimeout ≤ now₁ - tl)
    (hs₂ : cb₂.state = CBState.halfOpen) (hc₂ : cb₂.successCounter = 0)
    (hth₂ : 1 ≤ cb₂.successThreshold)
    (hs₃ : cb₃.state = CBState.halfOpen) (hk₃ : cb₃.isExcluded k = false) :
    ((cb₁.call now₁ .success).2 = CallResult.ok ∧
      ∀ k', (cb₁.call now₁ (.failure k')).2 = CallResult.errored k') ∧
    (cb₂.runCalls (List.replicate cb₂.successThreshold (t₂, .success))).state =
      CBState.closed ∧
    ((cb₃.call now₃ (.failure k)).1.state = CBState.opened ∧
      (cb₃.call now₃ (.failure k)).1.lastFailureTime = some now₃) := by
  refine ⟨⟨?_, fun k' => ?_⟩, ?_, call_halfOpen_failure cb₃ now₃ k hs₃ hk₃⟩
  · exact call_open_elapsed cb₁ now₁ tl hs₁ hl₁ hel₁ Outcome.success
  · exact call_open_elapsed cb₁ now₁ tl hs₁ hl₁ hel₁ (Outcome.failure k')
  · exact closes_after_successes_aux t₂ cb₂.successThreshold cb₂ hs₂ (by omega) hth₂

/-- Witness for C2 on the explicit tripped breaker `cbOpenAt100`: a call at
time 160 is allowed through; from HALF_OPEN one success closes it; a failure
in HALF_OPEN reopens it with `lastFailureTime = 160`. -/
theorem circuitBreaker_halfOpen_recovery_witness :
    ((cbOpenAt100.call 160 .success).2 = CallResult.ok ∧
      ∀ k', (cbOpenAt100.call 160 (.failure k')).2 = CallResult.errored k') ∧
    ((cbOpenAt100.changeState CBState.halfOpen).runCalls
        (List.replicate (cbOpenAt100.changeState CBState.halfOpen).successThreshold
          (160, .success))).state = CBState.closed ∧
    (((cbOpenAt100.changeState CBState.halfOpen).call 160 (.failure 4)).1.state =
        CBState.opened ∧
      ((cbOpenAt100.changeState CBState.halfOpen).call 160 (.failure 4)).1.lastFailureTime =
        some 160) :=
  circuitBreaker_halfOpen_recovery cbOpenAt100
    (cbOpenAt100.changeState CBState.halfOpen) (cbOpenAt100.changeState CBState.halfOpen)
    100 160 160 160 4 rfl rfl (by norm_num [cbOpenAt100]) (by decide) (by decide)
    (by decide) (by decide) (by decide)

/-- Counterexample to C5 as stated: on an OPEN breaker whose reset timeout
has elapsed, a call that fails with an *excluded* kind still changes `state`
(OPEN to HALF_OPEN) and `stateChanges`, because the reset probe transition
happens before the operation is invoked. -/
theorem excluded_failure_changes_state_counterexample :
    cbOpenAt100.isExcluded 9 = true ∧
    cbOpenAt100.state = CBState.opened ∧
    (cbOpenAt100.call 160 (.failure 9)).1.state = CBState.halfOpen ∧
    (cbOpenAt100.call 160 (.failure 9)).1.stateChanges = cbOpenAt100.stateChanges + 1 := by
  refine ⟨rfl, rfl, ?_, ?_⟩ <;>
    (norm_num [cbOpenAt100, CircuitBreaker.call, CircuitBreaker.shouldAttemptReset,
      CircuitBreaker.changeState, CircuitBreaker.onFailure, CircuitBreaker.isExcluded]
     ; rfl)

/-- C5 (amended): the failure handler itself is a complete no-op on an
excluded-kind failure, and any call that does not perform the OPEN to
HALF_OPEN reset transition leaves the whole breaker unchanged on an
excluded-kind failure while re-raising the same error. -/
theorem excluded_failure_frame (cb : CircuitBreaker) (k : Nat) (now : ℚ)
    (hk : cb.isExcluded k = true) (hres : cb.shouldAttemptReset now = false)
    (hst : cb.state ≠ CBState.opened) :
    cb.onFailure k now = cb ∧
    cb.call now (.failure k) = (cb, CallResult.errored k) := by
  have h1 : cb.onFailure k now = cb := by simp [CircuitBreaker.onFailure, hk]
  refine ⟨h1, ?_⟩
  simp [CircuitBreaker.call, hres, hst, h1]

/-- Witness for C5 (amended): a fresh CLOSED breaker excluding kind 9 is left
untouched by an excluded failure, which is re-raised. -/
theorem excluded_failure_frame_witness :
    (CircuitBreaker.init 3 60 1 [9]).onFailure 9 100 = CircuitBreaker.init 3 60 1 [9] ∧
    (CircuitBreaker.init 3 60 1 [9]).call 100 (.failure 9) =
      (CircuitBreaker.init 3 60 1 [9], CallResult.errored 9) :=
  excluded_failure_frame (CircuitBreaker.init 3 60 1 [9]) 9 100
    (by decide) (by decide) (by decide)

/-! ## Retry manager theorems -/

/-- C3: with `maxRetries = 2`, an operation failing retryably on attempts 0
and 1 and succeeding on attempt 2 returns the success value after exactly 3
invocations; an operation that always fails retryably raises `RetryError`
with `attempts = maxRetries + 1 = 3` after exactly 3 invocations. -/
theorem retry_two_failures_then_success_and_exhaustion {α : Type}
    (m : RetryManager) (op op' : Nat → Attempt α) (k₀ k₁ k' : Nat) (v : α)
    (hm : m.maxRetries = 2)
    (h0 : op 0 = .err k₀) (h1 : op 1 = .err k₁) (h2 : op 2 = .ok v)
    (hr0 : m.shouldRetry k₀ = true) (hr1 : m.shouldRetry k₁ = true)
    (hop' : ∀ i, op' i = .err k') (hr' : m.shouldRetry k' = true) :
    m.executeWithRetry op = (Except.ok v, 3) ∧
    m.executeWithRetry op' = (Except.error ⟨some k', m.maxRetries + 1⟩, 3) := by
  constructor
  · simp [RetryManager.executeWithRetry, RetryManager.retryAux, hm, h0, h1, h2, hr0, hr1]
  · simp [RetryManager.executeWithRetry, RetryManager.retryAux, hm, hop', hr']

/-- Witness for C3 with concrete operations over `Nat`. -/
theorem retry_two_failures_then_success_and_exhaustion_witness :
    (RetryManager.mk 2 1 60 2 false [5]).executeWithRetry
        (fun i => if i < 2 then Attempt.err 5 else Attempt.ok 42) = (Except.ok 42, 3) ∧
    (RetryManager.mk 2 1 60 2 false [5]).executeWithRetry
        (fun _ => Attempt.err (α := Nat) 5) =
      (Except.error ⟨some 5, (RetryManager.mk 2 1 60 2 false [5]).maxRetries + 1⟩, 3) :=
  retry_two_failures_then_success_and_exhaustion (RetryManager.mk 2 1 60 2 false [5])
    (fun i => if i < 2 then Attempt.err 5 else Attempt.ok 42)
    (fun _ => Attempt.err 5) 5 5 5 42 rfl rfl rfl rfl (by decide) (by decide)
    (fun _ => rfl) (by decide)

/-- Counterexample to C4 as stated: a first-attempt non-retryable failure
aborts after 1 invocation, yet the raised `RetryError` reports
`attempts = maxRetries + 1 = 4`, not the number of attempts actually made. -/
theorem retry_attempts_field_counterexample :
    retryNoneRetryable.executeWithRetry (fun _ => Attempt.err (α := Nat) 7) =
      (Except.error ⟨some 7, retryNoneRetryable.maxRetries + 1⟩, 1) ∧
    retryNoneRetryable.maxRetries + 1 ≠ 1 := by
  exact ⟨rfl, by decide⟩

/-- C4 (amended): a non-retryable first failure aborts immediately — the
operation is invoked exactly once and no retry happens — and the raised
`RetryError` wraps that error, but its `attempts` field is always
`maxRetries + 1`, even though fewer attempts were made. -/
theorem retry_nonretryable_aborts_immediately {α : Type}
    (m : RetryManager) (op : Nat → Attempt α) (k : Nat)
    (h0 : op 0 = .err k) (hk : m.shouldRetry k = false) :
    m.executeWithRetry op = (Except.error ⟨some k, m.maxRetries + 1⟩, 1) := by
  rcases hM : m.maxRetries with _ | n
  · simp [RetryManager.executeWithRetry, RetryManager.retryAux, h0, hM]
  · simp [RetryManager.executeWithRetry, RetryManager.retryAux, h0, hk, hM]

/-- Witness for C4 (amended) on the manager with no retryable kinds. -/
theorem retry_nonretryable_aborts_immediately_witness :
    retryNoneRetryable.executeWithRetry (fun _ => Attempt.err (α := Nat) 7) =
      (Except.error ⟨some 7, retryNoneRetryable.maxRetries + 1⟩, 1) :=
  retry_nonretryable_aborts_immediately retryNoneRetryable
    (fun _ => Attempt.err 7) 7 rfl (by decide)

/-- Counterexample to C6 as stated: with a negative `baseDelay` (and jitter
disabled) the computed delay is 0, not
`min (baseDelay * exponentialBase ^ attempt) maxDelay = -1`: the code clamps
the delay at 0 (`max(0, delay)`, retry.py line 78). -/
theorem calculateDelay_negative_base_counterexample :
    retryNegBase.calculateDelay 0 0 = 0 ∧
    min (retryNegBase.baseDelay * retryNegBase.exponentialBase ^ 0)
      retryNegBase.maxDelay = -1 := by
  constructor
  · norm_num [RetryManager.calculateDelay, retryNegBase]
  · norm_num [retryNegBase]

/-- C6 (amended): with jitter disabled the delay for attempt `a` equals
`max 0 (min (baseDelay * exponentialBase ^ a) maxDelay)`; whenever
`baseDelay`, `exponentialBase` and `maxDelay` are nonnegative this is exactly
the claim's `min (baseDelay * exponentialBase ^ a) maxDelay`, and with
`baseDelay = 1`, `exponentialBase = 2`, `maxDelay ≥ 4` the delays for
attempts 0, 1, 2 are 1, 2 and 4. -/
theorem calculateDelay_formula (m : RetryManager) (a : Nat) (rand : ℚ)
    (hj : m.jitter = false) :
    m.calculateDelay a rand =
      max 0 (min (m.baseDelay * m.exponentialBase ^ a) m.maxDelay) ∧
    (0 ≤ m.baseDelay → 0 ≤ m.exponentialBase → 0 ≤ m.maxDelay →
      m.calculateDelay a rand = min (m.baseDelay * m.exponentialBase ^ a) m.maxDelay) ∧
    (m.baseDelay = 1 → m.exponentialBase = 2 → (4 : ℚ) ≤ m.maxDelay →
      m.calculateDelay 0 rand = 1 ∧ m.calculateDelay 1 rand = 2 ∧
      m.calculateDelay 2 rand = 4) := by
  have hgen : ∀ b, m.calculateDelay b rand =
      max 0 (min (m.baseDelay * m.exponentialBase ^ b) m.maxDelay) := by
    intro b
    simp [RetryManager.calculateDelay, hj]
  have hnn : ∀ b, 0 ≤ m.baseDelay → 0 ≤ m.exponentialBase → 0 ≤ m.maxDelay →
      m.calculateDelay b rand = min (m.baseDelay * m.exponentialBase ^ b) m.maxDelay := by
    intro b hb he hM
    rw [hgen b]
    exact max_eq_right (le_min (mul_nonneg hb (pow_nonneg he b)) hM)
  refine ⟨hgen a, hnn a, fun h1 h2 h4 => ?_⟩
  have hM0 : (0 : ℚ) ≤ m.maxDelay := by linarith
  refine ⟨?_, ?_, ?_⟩ <;>
    · rw [hnn _ (by rw [h1]; norm_num) (by rw [h2]; norm_num) hM0, h1, h2]
      rw [min_eq_left (by norm_num; linarith)]
      norm_num

/-- Witness for C6 (amended): the manager with `baseDelay = 1`,
`exponentialBase = 2`, `maxDelay = 60` and jitter disabled yields delays
1, 2, 4 for attempts 0, 1, 2. -/
theorem calculateDelay_formula_witness :
    retryNoneRetryable.calculateDelay 0 0 = 1 ∧
    retryNoneRetryable.calculateDelay 1 0 = 2 ∧
    retryNoneRetryable.calculateDelay 2 0 = 4 :=
  (calculateDelay_formula retryNoneRetryable 0 0 rfl).2.2 rfl rfl (by norm_num [retryNoneRetryable])

/-! ## Service discovery theorems -/

/-- C7 evaluated at the failing input: when DNS resolution fails, the
Kubernetes discovery strategy does not return the intended fallback endpoint
— its `except` handler reads the still-unassigned `default_ports` local and
raises `UnboundLocalError` to the caller, while the success path returns the
resolved endpoints normally. -/
theorem kube_discovery_raises_on_dns_failure :
    kubeDiscoverEndpoints "redis" none =
      Except.error (PyError.unboundLocal "default_ports") ∧
    kubeDiscoverEndpoints "redis" (some ["10.0.0.1"]) =
      Except.ok [{ host := "10.0.0.1", port := 6379, scheme := "http",
                   weight := 1, healthy := true }] :=
  ⟨rfl, rfl⟩

/-- Python's `max` over a nonempty list keeps the running maximum, so the
result is the seed or one of the list elements. -/
theorem maxByWeight_mem (es : List ServiceEndpoint) :
    ∀ b, maxByWeight b es = b ∨ maxByWeight b es ∈ es := by
  induction es with
  | nil => intro b; left; rfl
  | cons e es ih =>
    intro b
    rcases ih (if e.weight > b.weight then e else b) with h | h
    · rw [maxByWeight, h]
      by_cases hc : e.weight > b.weight
      · right; simp [hc]
      · left; simp [hc]
    · right
      exact List.mem_cons_of_mem e h

/-- The running maximum dominates the seed and every list element. -/
theorem maxByWeight_ge (es : List ServiceEndpoint) :
    ∀ b, b.weight ≤ (maxByWeight b es).weight ∧
      ∀ f ∈ es, f.weight ≤ (maxByWeight b es).weight := by
  induction es with
  | nil => intro b; exact ⟨le_refl _, by simp⟩
  | cons e es ih =>
    intro b
    obtain ⟨hseed, hall⟩ := ih (if e.weight > b.weight then e else b)
    have hb : b.weight ≤ (if e.weight > b.weight then e else b).weight := by
      by_cases hc : e.weight > b.weight
      · simp [hc]; omega
      · simp [hc]
    have he : e.weight ≤ (if e.weight > b.weight then e else b).weight := by
      by_cases hc : e.weight > b.weight
      · simp [hc]
      · simp [hc]; omega
    refine ⟨le_trans hb (by rw [maxByWeight]; exact hseed), ?_⟩
    intro f hf
    rcases List.mem_cons.mp hf with rfl | hf
    · exact le_trans he (by rw [maxByWeight]; exact hseed)
    · rw [maxByWeight]; exact hall f hf

/-- A list of nonnegative integers with sum zero is all zeros. -/
theorem weights_zero_of_sum_zero (es : List ServiceEndpoint) :
    (∀ e ∈ es, 0 ≤ e.weight) → (es.map (·.weight)).sum = 0 →
    ∀ e ∈ es, e.weight = 0 := by
  induction es with
  | nil => intro _ _ e he; simp at he
  | cons a es ih =>
    intro hnn hsum e he
    have hrest : 0 ≤ (es.map (·.weight)).sum :=
      List.sum_nonneg (by intro x hx
                          obtain ⟨f, hf, rfl⟩ := List.mem_map.mp hx
                          exact hnn f (List.mem_cons_of_mem a hf))
    have ha : 0 ≤ a.weight := hnn a (List.mem_cons_self _ _)
    have hsum' : a.weight + (es.map (·.weight)).sum = 0 := by simpa using hsum
    rcases List.mem_cons.mp he with rfl | he
    · omega
    · exact ih (fun f hf => hnn f (List.mem_cons_of_mem a hf)) (by omega) e he

/-- Unfolding of `getBestEndpoint` when no endpoint is healthy. -/
theorem getBestEndpoint_nil (eps : List ServiceEndpoint)
    (h : getHealthyEndpoints eps = []) : getBestEndpoint eps = none := by
  unfold getBestEndpoint
  rw [h]

/-- Unfolding of `getBestEndpoint` on a nonempty healthy list. -/
theorem getBestEndpoint_cons (eps : List ServiceEndpoint) (e : ServiceEndpoint)
    (es : List ServiceEndpoint) (h : getHealthyEndpoints eps = e :: es) :
    getBestEndpoint eps =
      if ((e :: es).map (fun x => x.weight)).sum = 0 then some e
      else some (maxByWeight e es) := by
  unfold getBestEndpoint
  rw [h]

/-- C8 (amended): on a cached endpoint list whose healthy endpoints all have
nonnegative weight, `get_best_endpoint` returns `None` exactly when no
endpoint is healthy, and otherwise returns a healthy cached endpoint whose
weight dominates every healthy endpoint; concretely, with healthy endpoints
of weights 1 and 3 it returns the weight-3 one, with the weight-3 endpoint
unhealthy it returns the weight-1 one, and with both unhealthy it returns
`None`.  (When the healthy weights sum to zero the code returns the first
healthy endpoint regardless of weight, which is why negative weights fall
outside the claim.) -/
theorem bestEndpoint_highest_weight (eps : List ServiceEndpoint)
    (hw : ∀ e ∈ eps, e.healthy = true → 0 ≤ e.weight) :
    ((getBestEndpoint eps = none ↔ ∀ e ∈ eps, e.healthy = false) ∧
     (∀ e, getBestEndpoint eps = some e → e.healthy = true ∧ e ∈ eps ∧
        ∀ f ∈ eps, f.healthy = true → f.weight ≤ e.weight)) ∧
    (getBestEndpoint [redisW1, redisW3] = some redisW3 ∧
     getBestEndpoint [redisW1, { redisW3 with healthy := false }] = some redisW1 ∧
     getBestEndpoint [{ redisW1 with healthy := false },
       { redisW3 with healthy := false }] = none) := by
  have hmem : ∀ f, f ∈ getHealthyEndpoints eps ↔ f ∈ eps ∧ f.healthy = true := by
    intro f
    simp [getHealthyEndpoints, List.mem_filter]
  refine ⟨⟨?_, ?_⟩, by decide, by decide, by decide⟩
  · rcases h : getHealthyEndpoints eps with _ | ⟨e, es⟩
    · simp only [getBestEndpoint, h, true_iff]
      intro f hf
      by_contra hfh
      have : f ∈ getHealthyEndpoints eps :=
        (hmem f).mpr ⟨hf, by revert hfh; cases f.healthy <;> simp⟩
      rw [h] at this
      exact absurd this (List.not_mem_nil _)
    · constructor
      · intro habs
        rw [getBestEndpoint_cons eps e es h] at habs
        split at habs <;> simp at habs
      · intro hall
        have hmem' : e ∈ getHealthyEndpoints eps := by
          rw [h]; exact List.mem_cons_self _ _
        have he := (hmem e).mp hmem'
        rw [hall e he.1] at he
        exact absurd he.2 (by simp)
  · intro b hb
    rcases h : getHealthyEndpoints eps with _ | ⟨e, es⟩
    · rw [getBestEndpoint_nil eps h] at hb; exact absurd hb (by simp)
    · have hin : ∀ f, f ∈ e :: es → f.healthy = true ∧ f ∈ eps := by
        intro f hf
        have hff := (hmem f).mp (h ▸ hf)
        exact ⟨hff.2, hff.1⟩
      have hnn : ∀ f ∈ e :: es, 0 ≤ f.weight := by
        intro f hf
        obtain ⟨hfh, hfe⟩ := hin f hf
        exact hw f hfe hfh
      rw [getBestEndpoint_cons eps e es h] at hb
      by_cases hz : ((e :: es).map (fun x => x.weight)).sum = 0
      · rw [if_pos hz] at hb
        injection hb with hb
        have hzero := weights_zero_of_sum_zero (e :: es) hnn hz
        obtain ⟨hbh, hbe⟩ := hin e (List.mem_cons_self _ _)
        subst hb
        refine ⟨hbh, hbe, ?_⟩
        intro f hfe hfh
        have hf : f ∈ getHealthyEndpoints eps := (hmem f).mpr ⟨hfe, hfh⟩
        rw [h] at hf
        rw [hzero f hf, hzero e (List.mem_cons_self _ _)]
      · rw [if_neg hz] at hb
        injection hb with hb
        have hmemb : b ∈ e :: es := by
          rcases maxByWeight_mem es e with hcase | hcase
          · rw [hb] at hcase; rw [hcase]; exact List.mem_cons_self _ _
          · rw [hb] at hcase; exact List.mem_cons_of_mem e hcase
        obtain ⟨hbh, hbe⟩ := hin b hmemb
        refine ⟨hbh, hbe, ?_⟩
        intro f hfe hfh
        have hf : f ∈ getHealthyEndpoints eps := (hmem f).mpr ⟨hfe, hfh⟩
        rw [h] at hf
        obtain ⟨hseed, hall⟩ := maxByWeight_ge es e
        rcases List.mem_cons.mp hf with rfl | hf
        · rw [← hb]; exact hseed
        · rw [← hb]; exact hall f hf

/-- Counterexample to C8 as stated: two healthy endpoints of weights -1 and
1 make `total_weight == 0`, so `get_best_endpoint` returns the *first*
healthy endpoint (weight -1) instead of the highest-weight one (weight 1). -/
theorem bestEndpoint_zero_sum_counterexample :
    getBestEndpoint [epNeg, epPos] = some epNeg ∧
    epNeg.weight < epPos.weight ∧ epPos.healthy = true := by
  refine ⟨by decide, by decide, by decide⟩

/-- Witness for C8 (amended) on the two-endpoint redis scenario. -/
theorem bestEndpoint_highest_weight_witness :
    (getBestEndpoint [redisW1, redisW3] = none ↔
      ∀ e ∈ [redisW1, redisW3], e.healthy = false) ∧
    (getBestEndpoint [redisW1, redisW3] = some redisW3 ∧
     getBestEndpoint [redisW1, { redisW3 with healthy := false }] = some redisW1 ∧
     getBestEndpoint [{ redisW1 with healthy := false },
       { redisW3 with healthy := false }] = none) :=
  ⟨(bestEndpoint_highest_weight [redisW1, redisW3] (by decide)).1.1,
   (bestEndpoint_highest_weight [redisW1, redisW3] (by decide)).2⟩

/-! ## Service monitor theorems -/

set_option maxHeartbeats 2000000 in
/-- C9: for a health check that ran to completion, the "became unhealthy"
ERROR alert fires exactly once on a healthy-to-unhealthy flip and never on a
repeated failing cycle; the "recovered" INFO alert fires exactly once on an
unhealthy-to-healthy flip and never otherwise; and a successful check resets
`consecutiveFailures` to 0. -/
theorem monitor_edge_triggered_alerts (mon : ServiceMonitor) (result : CheckResult)
    (rt now : ℚ) (hres : result.isRaised = false) :
    (mon.metrics.isHealthy = true → healthOf result = false →
      ((mon.performHealthCheck result rt now).2.1.count ⟨.error, .becameUnhealthy⟩ = 1)) ∧
    (mon.metrics.isHealthy = false → healthOf result = false →
      ((mon.performHealthCheck result rt now).2.1.count ⟨.error, .becameUnhealthy⟩ = 0)) ∧
    (mon.metrics.isHealthy = false → healthOf result = true →
      ((mon.performHealthCheck result rt now).2.1.count ⟨.info, .recovered⟩ = 1)) ∧
    (mon.metrics.isHealthy = true → healthOf result = true →
      ((mon.performHealthCheck result rt now).2.1.count ⟨.info, .recovered⟩ = 0) ∧
      ((mon.performHealthCheck result rt now).2.1.count ⟨.error, .becameUnhealthy⟩ = 0)) ∧
    (healthOf result = true →
      (mon.performHealthCheck result rt now).1.metrics.consecutiveFailures = 0) := by
  cases result <;> simp only [CheckResult.isRaised, Bool.true_eq_false] at hres
  all_goals
    refine ⟨fun hWas hH => ?_, fun hWas hH => ?_, fun hWas hH => ?_,
      fun hWas hH => ⟨?_, ?_⟩, fun hH => ?_⟩
  all_goals simp_all only [ServiceMonitor.performHealthCheck]
  all_goals try split_ifs <;>
    simp_all [List.count_append, List.count_cons, List.count_nil, beq_iff_eq]

/-- Witness for C9: a flip of the healthy fixture monitor to unhealthy emits
exactly one "became unhealthy" alert. -/
theorem monitor_edge_triggered_alerts_witness :
    (CheckResult.retBool false).isRaised = false ∧
    ((monHealthy.performHealthCheck (.retBool false) 5 100).2.1.count
        ⟨.error, .becameUnhealthy⟩ = 1) ∧
    ((monHealthy.performHealthCheck (.retBool true) 5 100).1.metrics.consecutiveFailures
        = 0) :=
  ⟨rfl,
   (monitor_edge_triggered_alerts monHealthy (.retBool false) 5 100 rfl).1 rfl rfl,
   ((monitor_edge_triggered_alerts monHealthy (.retBool true) 5 100 rfl).2.2.2.2) rfl⟩

/-- C10: when the health-check function itself raises, the monitor bumps
`error_count` and `consecutive_failures`, marks the service unhealthy,
stamps `last_check`, leaves `response_time_ms` untouched, and emits exactly
the single "Health check failed" ERROR alert — in particular no
"Service became unhealthy" transition alert even from a healthy state. -/
theorem monitor_exception_path (mon : ServiceMonitor) (exc : String) (rt now : ℚ) :
    mon.performHealthCheck (.raised exc) rt now =
      ({ mon with metrics := { mon.metrics with
            errorCount := mon.metrics.errorCount + 1,
            consecutiveFailures := mon.metrics.consecutiveFailures + 1,
            isHealthy := false,
            lastCheck := now } },
       [⟨.error, .healthCheckFailed exc⟩], false) ∧
    (mon.performHealthCheck (.raised exc) rt now).1.metrics.responseTimeMs =
      mon.metrics.responseTimeMs ∧
    ((mon.performHealthCheck (.raised exc) rt now).2.1.count
      ⟨.error, .becameUnhealthy⟩ = 0) := by
  refine ⟨rfl, rfl, ?_⟩
  simp [ServiceMonitor.performHealthCheck, List.count_cons, beq_iff_eq]

end CoinsForChange
